import Mathlib

/-!
Shallow embedding of `src/book/data_helpers.py` from the
HEFTIEProject/heftie-textbook repository, together with theorems settling
the specification claims about its three helper functions
(`load_heart_data`, `plot_slice`, `get_directory_contents`).

Python exceptions are embedded as an error inductive (`PyError`):
`FileNotFoundError` is the spec's `NotFoundError`, `ValueError` is the
spec's `InvalidArgumentError`, and `IndexError` is numpy's out-of-bounds
error.  A function that can raise returns `Except PyError _`.
-/

namespace Heftie

/-- Embedded Python exceptions raised by the module. -/
inductive PyError where
  | fileNotFoundError (msg : String)
  | valueError (msg : String)
  | indexError (msg : String)
deriving DecidableEq

/-! ## Directory lister: `get_directory_contents` -/

/-- State of a filesystem path, as observed by `get_directory_contents`:
it may be missing, a regular file, or a directory with a list of
immediate-child entry names. -/
inductive PathState where
  | missing
  | file
  | directory (entries : List String)
deriving DecidableEq

/-- Whether a name begins with a dot (a hidden entry). -/
def startsWithDot (n : String) : Bool :=
  match n.data with
  | [] => false
  | c :: _ => c == ('.' : Char)

/-- The `dirpath.glob("*")` listing: `pathlib`'s `*` wildcard matches
every immediate child, dot-prefixed (hidden) names included, so the
listing is exactly the directory's entries. -/
def globStar (entries : List String) : List String :=
  entries

/-- Lexicographic comparison of character lists by Unicode code point:
the order Python uses to compare strings with `<` and `<=`. -/
def charListLe : List Char → List Char → Bool
  | [], _ => true
  | _ :: _, [] => false
  | a :: as, b :: bs =>
    if a.toNat < b.toNat then true
    else if b.toNat < a.toNat then false
    else charListLe as bs

/-- Python's `<=` on strings: lexicographic by code point. -/
def pyStrLe (a b : String) : Bool :=
  charListLe a.data b.data

/-- Python's `sorted` on strings: stable sort in ascending lexicographic
(code-point) order. -/
def pySorted (l : List String) : List String :=
  l.insertionSort (fun a b => pyStrLe a b = true)

/-- Embedding of `get_directory_contents(dirpath)`: raises `ValueError`
when `dirpath` is not a directory, otherwise returns the sorted names of
the children produced by `dirpath.glob("*")`. `name` is the textual path
interpolated into the error message. -/
def get_directory_contents (name : String) (dirpath : PathState) :
    Except PyError (List String) :=
  match dirpath with
  | .directory entries => .ok (pySorted (globStar entries))
  | _ => .error (.valueError (name ++ " is not a directory"))

/-! ## Dataset loader: `load_heart_data` -/

/-- A zarr array handle: shape plus (flattened) numeric contents of the
on-disk chunked store. -/
structure ZarrArray where
  shape : List Nat
  data : List Int
deriving DecidableEq

/-- An in-memory numpy array: shape plus flattened contents. -/
structure NpArray where
  shape : List Nat
  data : List Int
deriving DecidableEq

/-- The expression `np.array(arr_zarr[:])`: a full eager copy of the zarr
array into an in-memory numpy array. -/
def npArrayOfFullSlice (z : ZarrArray) : NpArray :=
  ⟨z.shape, z.data⟩

/-- Full materialization of a lazily-backed zarr handle. -/
def materialize (z : ZarrArray) : NpArray :=
  ⟨z.shape, z.data⟩

/-- The two possible successful results of `load_heart_data`. -/
inductive LoadResult where
  | numpyArray (a : NpArray)
  | zarrHandle (h : ZarrArray)
deriving DecidableEq

/-- The filesystem as seen by `load_heart_data`: whether the fixed
dataset path exists, and the zarr store found there when it does. -/
structure HeartDataFS where
  dataPathExists : Bool
  store : ZarrArray
deriving DecidableEq

/-- The fixed dataset path resolved relative to the module location. -/
def heartDataPath : String := "data/hoa_heart.zarr"

/-- Observable side effects of `load_heart_data`; opening the zarr store
is the only one. -/
inductive LoadEffect where
  | openStore
deriving DecidableEq

/-- Embedding of `load_heart_data(array_type)`.  Returns the result
together with the list of effects performed, so that "no store was
opened" is expressible.  Mirrors the source order: the path-existence
check comes first, the store is then opened, and only then is the mode
string inspected. -/
def load_heart_data (fs : HeartDataFS) (array_type : String) :
    Except PyError LoadResult × List LoadEffect :=
  if fs.dataPathExists = false then
    (.error (.fileNotFoundError (heartDataPath ++ " does not exist.")), [])
  else
    let arr_zarr := fs.store
    if array_type = "numpy" then
      (.ok (.numpyArray (npArrayOfFullSlice arr_zarr)), [.openStore])
    else if array_type = "zarr" then
      (.ok (.zarrHandle arr_zarr), [.openStore])
    else
      (.error (.valueError ("Did not recognise array_type=\x27" ++ array_type ++ "\x27")),
       [.openStore])

/-! ## Slice renderer: `plot_slice` -/

/-- State of a matplotlib `Axes` surface: the displayed image data, the
colormap passed to `imshow`, the title, and whether axis decorations are
shown.  A fresh surface from `plt.subplots()` has none of them set and
axes on. -/
structure Axes where
  image : Option (List (List Int))
  cmap : Option String
  title : Option String
  axisOn : Bool
deriving DecidableEq

/-- The surface created by `plt.subplots()` when no `ax` is supplied. -/
def defaultAxes : Axes :=
  ⟨none, none, none, true⟩

/-- A 3-dimensional numpy array: its shape `(n1, n2, n3)` and its
entries as nested rows (axis 0, then axis 1, then axis 2). -/
structure NpArray3 where
  n1 : Nat
  n2 : Nat
  n3 : Nat
  data : List (List (List Int))
deriving DecidableEq

/-- Numpy index resolution on an axis of size `n`: `z` with
`0 ≤ z < n` is used as is, `z` with `-n ≤ z < 0` counts from the end
(effective index `n + z`), and anything else raises `IndexError`. -/
def npZIndex (n : Nat) (z : Int) : Except PyError Nat :=
  if 0 ≤ z ∧ z < (n : Int) then .ok z.toNat
  else if -(n : Int) ≤ z ∧ z < 0 then .ok ((n : Int) + z).toNat
  else .error (.indexError
    ("index " ++ toString z ++ " is out of bounds for axis 2 with size " ++ toString n))

/-- The numpy expression `array[:, :, z]`: the 2-D slice obtained by
fixing the last axis at the resolved index. -/
def sliceAtZ (a : NpArray3) (z : Int) : Except PyError (List (List Int)) :=
  match npZIndex a.n3 z with
  | .error e => .error e
  | .ok k => .ok (a.data.map (fun plane => plane.map (fun row => row.getD k 0)))

/-- Embedding of `plot_slice(array, z_idx, ax)`.  The Python function
returns `None` and mutates the surface; the embedding returns the final
surface state (or the propagated numpy error).  `imshow` sets the image
with the `"Grays_r"` colormap, `set_title` sets the title, and
`ax.axis("off")` disables axis decorations. -/
def plot_slice (array : NpArray3) (z_idx : Int) (ax : Option Axes) :
    Except PyError Axes :=
  let ax0 := ax.getD defaultAxes
  match sliceAtZ array z_idx with
  | .error e => .error e
  | .ok sl =>
      .ok { ax0 with
            image := some sl
            cmap := some "Grays_r"
            title := some ("Slice at z=" ++ toString z_idx)
            axisOn := false }

/-- The property that `pat` occurs as a contiguous substring of `s`. -/
def containsSubstr (s pat : String) : Prop :=
  ∃ l r, s = l ++ pat ++ r

/-- A 3×3×5 sample volume used to instantiate the renderer claims. -/
def sampleArray : NpArray3 :=
  ⟨3, 3, 5,
   [[[0, 1, 2, 3, 4], [5, 6, 7, 8, 9], [10, 11, 12, 13, 14]],
    [[15, 16, 17, 18, 19], [20, 21, 22, 23, 24], [25, 26, 27, 28, 29]],
    [[30, 31, 32, 33, 34], [35, 36, 37, 38, 39], [40, 41, 42, 43, 44]]]⟩

/-! ## Order lemmas for the string comparison -/

/-- Unfolding lemma for `charListLe` on two nonempty lists. -/
theorem charListLe_cons_iff (a b : Char) (as bs : List Char) :
    charListLe (a :: as) (b :: bs) = true ↔
      a.toNat < b.toNat ∨ (a.toNat = b.toNat ∧ charListLe as bs = true) := by
  by_cases h1 : a.toNat < b.toNat
  · simp [charListLe, h1]
  · by_cases h2 : b.toNat < a.toNat
    · have hne : a.toNat ≠ b.toNat := by omega
      simp [charListLe, h1, h2, hne]
    · have he : a.toNat = b.toNat := by omega
      simp [charListLe, h1, h2, he]

/-- The comparison `charListLe` is total. -/
theorem charListLe_total : ∀ as bs : List Char,
    charListLe as bs = true ∨ charListLe bs as = true
  | [], _ => Or.inl rfl
  | _ :: _, [] => Or.inr rfl
  | a :: as, b :: bs => by
    rcases Nat.lt_trichotomy a.toNat b.toNat with h | h | h
    · exact Or.inl ((charListLe_cons_iff a b as bs).mpr (Or.inl h))
    · rcases charListLe_total as bs with ih | ih
      · exact Or.inl ((charListLe_cons_iff a b as bs).mpr (Or.inr ⟨h, ih⟩))
      · exact Or.inr ((charListLe_cons_iff b a bs as).mpr (Or.inr ⟨h.symm, ih⟩))
    · exact Or.inr ((charListLe_cons_iff b a bs as).mpr (Or.inl h))

/-- The comparison `charListLe` is transitive. -/
theorem charListLe_trans : ∀ as bs cs : List Char, charListLe as bs = true →
    charListLe bs cs = true → charListLe as cs = true
  | [], _, _, _, _ => rfl
  | _ :: _, [], _, h1, _ => by simp [charListLe] at h1
  | _ :: _, _ :: _, [], _, h2 => by simp [charListLe] at h2
  | a :: as, b :: bs, c :: cs, h1, h2 => by
    rcases (charListLe_cons_iff a b as bs).mp h1 with hab | ⟨hab, t1⟩ <;>
      rcases (charListLe_cons_iff b c bs cs).mp h2 with hbc | ⟨hbc, t2⟩
    · exact (charListLe_cons_iff a c as cs).mpr (Or.inl (by omega))
    · exact (charListLe_cons_iff a c as cs).mpr (Or.inl (by omega))
    · exact (charListLe_cons_iff a c as cs).mpr (Or.inl (by omega))
    · exact (charListLe_cons_iff a c as cs).mpr
        (Or.inr ⟨by omega, charListLe_trans as bs cs t1 t2⟩)

/-- The comparison `pyStrLe` is total. -/
theorem pyStrLe_total (a b : String) : pyStrLe a b = true ∨ pyStrLe b a = true :=
  charListLe_total a.data b.data

/-- The comparison `pyStrLe` is transitive. -/
theorem pyStrLe_trans (a b c : String) :
    pyStrLe a b = true → pyStrLe b c = true → pyStrLe a c = true :=
  charListLe_trans a.data b.data c.data

/-! ## Claims about `get_directory_contents` -/

/-- C1: for every existing directory, `get_directory_contents` returns
the lexicographically sorted list of the names of all immediate children,
files and subdirectories alike: the result is sorted with respect to the
code-point order, is a permutation of the directory's entries, and on a
directory containing exactly `{"b.txt", "a.txt", "c"}` the result is
`["a.txt", "b.txt", "c"]`. -/
theorem C1_sorted_full_listing (name : String) (entries : List String) :
    get_directory_contents name (.directory entries) =
        Except.ok (pySorted entries) ∧
      List.Sorted (fun a b => pyStrLe a b = true) (pySorted entries) ∧
      (pySorted entries).Perm entries ∧
      get_directory_contents name (.directory ["b.txt", "a.txt", "c"]) =
        Except.ok ["a.txt", "b.txt", "c"] := by
  haveI ht : IsTotal String (fun a b => pyStrLe a b = true) := ⟨pyStrLe_total⟩
  haveI htr : IsTrans String (fun a b => pyStrLe a b = true) := ⟨pyStrLe_trans⟩
  exact ⟨rfl, List.sorted_insertionSort _ _, List.perm_insertionSort _ _, rfl⟩

/-- C5: on a path that exists but is a regular file rather than a
directory, `get_directory_contents` raises `ValueError` (the spec's
`InvalidArgumentError`) and returns no list. -/
theorem C5_non_directory_value_error (name : String) :
    get_directory_contents name .file =
      Except.error (.valueError (name ++ " is not a directory")) :=
  rfl

/-- C9 (counterexample): the claim says a dot-prefixed immediate child is
omitted from the listing, but `pathlib`'s `*` glob pattern matches hidden
entries: on a directory whose entries are `[".hidden", "a.txt"]` the
function returns `[".hidden", "a.txt"]`, which contains `".hidden"`. -/
theorem C9_counterexample_hidden_included :
    get_directory_contents "d" (.directory [".hidden", "a.txt"]) =
        Except.ok [".hidden", "a.txt"] ∧
      ".hidden" ∈ ([".hidden", "a.txt"] : List String) :=
  ⟨rfl, by decide⟩

/-- C9 (amended): an immediate child whose name begins with a dot is
included in the returned listing, because `pathlib`'s `*` glob pattern
matches hidden entries like every other immediate child. -/
theorem C9_hidden_child_included (name : String) (entries : List String)
    (e : String) (he : e ∈ entries) (hdot : startsWithDot e = true)
    (l : List String)
    (hl : get_directory_contents name (.directory entries) = Except.ok l) :
    e ∈ l := by
  have hl2 : l = pySorted entries := (Except.ok.inj hl).symm
  subst hl2
  exact (List.perm_insertionSort _ _).mem_iff.mpr he

/-- Witness for C9 at a concrete directory with a hidden entry. -/
theorem C9_witness :
    (".h" ∈ [".h", "a"]) ∧ startsWithDot ".h" = true ∧
      get_directory_contents "d" (.directory [".h", "a"]) =
        Except.ok [".h", "a"] ∧
      ".h" ∈ ([".h", "a"] : List String) :=
  ⟨by decide, by decide, rfl,
    C9_hidden_child_included "d" [".h", "a"] ".h" (by decide) (by decide)
      [".h", "a"] rfl⟩

/-! ## Claims about `load_heart_data` -/

/-- C2: when the dataset path exists, loading in `"numpy"` mode returns
an in-memory array equal, in shape and in values, to the full
materialization of the lazily-backed handle returned in `"zarr"` mode. -/
theorem C2_numpy_zarr_roundtrip (fs : HeartDataFS)
    (h : fs.dataPathExists = true) :
    ∃ a hz, (load_heart_data fs "numpy").1 = Except.ok (.numpyArray a) ∧
      (load_heart_data fs "zarr").1 = Except.ok (.zarrHandle hz) ∧
      a = materialize hz ∧
      a.shape = (materialize hz).shape ∧ a.data = (materialize hz).data := by
  refine ⟨npArrayOfFullSlice fs.store, fs.store, ?_, ?_, rfl, rfl, rfl⟩ <;>
    simp [load_heart_data, h]

/-- Witness for C2 at a concrete filesystem state. -/
theorem C2_witness :
    (HeartDataFS.mk true ⟨[2, 2, 2], [1, 2, 3, 4, 5, 6, 7, 8]⟩).dataPathExists
        = true ∧
      ∃ a hz,
        (load_heart_data ⟨true, ⟨[2, 2, 2], [1, 2, 3, 4, 5, 6, 7, 8]⟩⟩
            "numpy").1 = Except.ok (.numpyArray a) ∧
        (load_heart_data ⟨true, ⟨[2, 2, 2], [1, 2, 3, 4, 5, 6, 7, 8]⟩⟩
            "zarr").1 = Except.ok (.zarrHandle hz) ∧
        a = materialize hz ∧
        a.shape = (materialize hz).shape ∧ a.data = (materialize hz).data :=
  ⟨rfl, C2_numpy_zarr_roundtrip ⟨true, ⟨[2, 2, 2], [1, 2, 3, 4, 5, 6, 7, 8]⟩⟩ rfl⟩

/-- C3: when the dataset path exists and the mode string is neither
`"numpy"` nor `"zarr"`, loading raises `ValueError` (the spec's
`InvalidArgumentError`) and returns no value. -/
theorem C3_unrecognised_mode_value_error (fs : HeartDataFS) (mode : String)
    (hex : fs.dataPathExists = true)
    (h1 : mode ≠ "numpy") (h2 : mode ≠ "zarr") :
    (load_heart_data fs mode).1 = Except.error
      (.valueError ("Did not recognise array_type=\x27" ++ mode ++ "\x27")) := by
  simp [load_heart_data, hex, h1, h2]

/-- Witness for C3 at mode `"csv"`. -/
theorem C3_witness :
    (HeartDataFS.mk true ⟨[2], [7, 9]⟩).dataPathExists = true ∧
      ("csv" : String) ≠ "numpy" ∧ ("csv" : String) ≠ "zarr" ∧
      (load_heart_data ⟨true, ⟨[2], [7, 9]⟩⟩ "csv").1 = Except.error
        (.valueError ("Did not recognise array_type=\x27" ++ "csv" ++ "\x27")) :=
  ⟨rfl, by decide, by decide,
    C3_unrecognised_mode_value_error ⟨true, ⟨[2], [7, 9]⟩⟩ "csv" rfl
      (by decide) (by decide)⟩

/-- C4: when the fixed dataset path does not exist, loading raises
`FileNotFoundError` (the spec's `NotFoundError`) for every mode, and the
empty effect list shows that no store was opened first. -/
theorem C4_missing_path_not_found (fs : HeartDataFS) (mode : String)
    (h : fs.dataPathExists = false) :
    load_heart_data fs mode =
      (Except.error (.fileNotFoundError (heartDataPath ++ " does not exist.")),
       ([] : List LoadEffect)) := by
  simp [load_heart_data, h]

/-- Witness for C4 at a concrete filesystem state. -/
theorem C4_witness :
    (HeartDataFS.mk false ⟨[], []⟩).dataPathExists = false ∧
      load_heart_data ⟨false, ⟨[], []⟩⟩ "numpy" =
        (Except.error
          (.fileNotFoundError (heartDataPath ++ " does not exist.")),
         ([] : List LoadEffect)) :=
  ⟨rfl, C4_missing_path_not_found ⟨false, ⟨[], []⟩⟩ "numpy" rfl⟩

/-- C10: when the dataset path is missing and the mode string is also
unrecognized, `FileNotFoundError` takes precedence: the function raises
it and never raises `ValueError`, because the existence check precedes
the mode check. -/
theorem C10_not_found_takes_precedence (fs : HeartDataFS) (mode : String)
    (h : fs.dataPathExists = false)
    (h1 : mode ≠ "numpy") (h2 : mode ≠ "zarr") :
    (load_heart_data fs mode).1 =
        Except.error
          (.fileNotFoundError (heartDataPath ++ " does not exist.")) ∧
      ∀ msg, (load_heart_data fs mode).1 ≠ Except.error (.valueError msg) := by
  constructor
  · simp [load_heart_data, h]
  · intro msg hc
    simp [load_heart_data, h] at hc

/-- Witness for C10 at mode `"csv"` with a missing dataset. -/
theorem C10_witness :
    (HeartDataFS.mk false ⟨[], []⟩).dataPathExists = false ∧
      ("csv" : String) ≠ "numpy" ∧ ("csv" : String) ≠ "zarr" ∧
      (load_heart_data ⟨false, ⟨[], []⟩⟩ "csv").1 =
          Except.error
            (.fileNotFoundError (heartDataPath ++ " does not exist.")) ∧
      ∀ msg, (load_heart_data ⟨false, ⟨[], []⟩⟩ "csv").1 ≠
        Except.error (.valueError msg) :=
  ⟨rfl, by decide, by decide,
    (C10_not_found_takes_precedence ⟨false, ⟨[], []⟩⟩ "csv" rfl
      (by decide) (by decide)).1,
    (C10_not_found_takes_precedence ⟨false, ⟨[], []⟩⟩ "csv" rfl
      (by decide) (by decide)).2⟩

/-! ## Claims about `plot_slice` -/

/-- C6: for an in-bounds z-index, `plot_slice` renders exactly the slice
`array[:, :, z]` in grayscale on the surface, sets a title containing the
literal substring formed by `"z="` and the index, and disables axis
decorations.  The Python function returns `None`; the embedding exposes
the side effect as the final surface state. -/
theorem C6_in_bounds_render (a : NpArray3) (z : Int) (ax : Option Axes)
    (h0 : 0 ≤ z) (h1 : z < (a.n3 : Int)) :
    plot_slice a z ax = Except.ok
        ⟨some (a.data.map fun plane => plane.map fun row => row.getD z.toNat 0),
         some "Grays_r", some ("Slice at z=" ++ toString z), false⟩ ∧
      containsSubstr ("Slice at z=" ++ toString z) ("z=" ++ toString z) := by
  constructor
  · have hz : npZIndex a.n3 z = Except.ok z.toNat := by
      unfold npZIndex
      rw [if_pos ⟨h0, h1⟩]
    simp [plot_slice, sliceAtZ, hz]
  · exact ⟨"Slice at ", "",
      by rw [String.append_empty, ← String.append_assoc]; congr 1⟩

/-- Witness for C6 on the 3×3×5 sample volume at z-index 2. -/
theorem C6_witness :
    (0 : Int) ≤ 2 ∧ (2 : Int) < (sampleArray.n3 : Int) ∧
      (plot_slice sampleArray 2 none = Except.ok
          ⟨some (sampleArray.data.map fun plane =>
              plane.map fun row => row.getD (2 : Int).toNat 0),
           some "Grays_r", some ("Slice at z=" ++ toString (2 : Int)), false⟩ ∧
        containsSubstr ("Slice at z=" ++ toString (2 : Int))
          ("z=" ++ toString (2 : Int))) :=
  ⟨by decide, by decide, C6_in_bounds_render sampleArray 2 none (by decide) (by decide)⟩

/-- C7: a z-index that is out of bounds for the z-axis (below `-n3` or at
least `n3`) makes `plot_slice` fail with the array library's
`IndexError`; the function performs no bounds re-validation of its
own. -/
theorem C7_out_of_bounds_index_error (a : NpArray3) (z : Int)
    (ax : Option Axes) (h : z < -(a.n3 : Int) ∨ (a.n3 : Int) ≤ z) :
    ∃ msg, plot_slice a z ax = Except.error (.indexError msg) := by
  have hn1 : ¬(0 ≤ z ∧ z < (a.n3 : Int)) := by rcases h with h | h <;> omega
  have hn2 : ¬(-(a.n3 : Int) ≤ z ∧ z < 0) := by rcases h with h | h <;> omega
  refine ⟨"index " ++ toString z ++ " is out of bounds for axis 2 with size "
      ++ toString a.n3, ?_⟩
  have hz : npZIndex a.n3 z = Except.error (.indexError
      ("index " ++ toString z ++ " is out of bounds for axis 2 with size "
        ++ toString a.n3)) := by
    unfold npZIndex
    rw [if_neg hn1, if_neg hn2]
  simp [plot_slice, sliceAtZ, hz]

/-- Witness for C7 on the 3×3×5 sample volume at z-index 5. -/
theorem C7_witness :
    ((5 : Int) < -(sampleArray.n3 : Int) ∨ (sampleArray.n3 : Int) ≤ 5) ∧
      ∃ msg, plot_slice sampleArray 5 none = Except.error (.indexError msg) :=
  ⟨by decide, C7_out_of_bounds_index_error sampleArray 5 none (by decide)⟩

/-- C8: a negative z-index within `[-n3, -1]` does not raise:
`plot_slice` renders the slice counted from the end, at effective index
`n3 + z`, and the title shows the negative index as written. -/
theorem C8_negative_index_from_end (a : NpArray3) (z : Int)
    (ax : Option Axes) (h0 : -(a.n3 : Int) ≤ z) (h1 : z < 0) :
    plot_slice a z ax = Except.ok
      ⟨some (a.data.map fun plane =>
          plane.map fun row => row.getD ((a.n3 : Int) + z).toNat 0),
       some "Grays_r", some ("Slice at z=" ++ toString z), false⟩ := by
  have hn : ¬(0 ≤ z ∧ z < (a.n3 : Int)) := by omega
  have hz : npZIndex a.n3 z = Except.ok ((a.n3 : Int) + z).toNat := by
    unfold npZIndex
    rw [if_neg hn, if_pos ⟨h0, h1⟩]
  simp [plot_slice, sliceAtZ, hz]

/-- Witness for C8 on the 3×3×5 sample volume at z-index -1, whose title
reads "Slice at z=-1" and whose image is the slice at effective index
4. -/
theorem C8_witness :
    -(sampleArray.n3 : Int) ≤ -1 ∧ (-1 : Int) < 0 ∧
      plot_slice sampleArray (-1) none = Except.ok
        ⟨some (sampleArray.data.map fun plane =>
            plane.map fun row => row.getD ((sampleArray.n3 : Int) + -1).toNat 0),
         some "Grays_r", some ("Slice at z=" ++ toString (-1 : Int)), false⟩ :=
  ⟨by decide, by decide,
    C8_negative_index_from_end sampleArray (-1) none (by decide) (by decide)⟩

end Heftie
